import Mathlib

/-!
Verification of the command-channel and automation-adapter layers of the
system-testing library.  The JavaScript sources are embedded shallowly:
each class method becomes a Lean function on an explicit state record,
asynchronous effects (WebSocket transmissions, promise settlements) become
explicit event lists, and thrown errors become `Option String` / `Except`
results carrying the thrown message.
-/

namespace SystemTesting

/-! ## Command channel (src/src/system-test-communicator.js)

`SystemTestCommunicator` keeps a map `_responses` from command id to the
`{resolve, reject}` pair of the promise returned by `sendCommand`, a FIFO
`_sendQueue` of not-yet-transmitted envelopes, a monotone `_sendQueueCount`
used to allocate command ids, and a `ws` WebSocket reference (`null` until a
client connects).  We record the pending map as the list of pending ids (ids
are allocated from the monotone counter, so they are distinct), the socket as
`Option Nat` holding its `readyState` (`none` when `this.ws` is `null`), and
promise settlements as explicit events. -/

/-- Payload of a response envelope: JS `{result}` or `{error}` objects.
Absent keys are `none`. -/
structure RespData where
  result : Option String := none
  error : Option String := none
deriving Repr, DecidableEq

/-- An outbound JSON envelope as built by `sendCommand` / `respond`:
`{type: "command", id, data}` or `{type: "response", id, data}`. -/
inductive Envelope where
  | command (id : Nat) (data : String)
  | response (id : Nat) (data : RespData)
deriving Repr, DecidableEq

/-- The mutable fields of a `SystemTestCommunicator` instance. -/
structure CommState where
  /-- Keys of `_responses`: ids with a registered pending `{resolve, reject}`. -/
  responses : List Nat := []
  /-- `_sendQueue`. -/
  sendQueue : List Envelope := []
  /-- `_sendQueueCount`. -/
  sendQueueCount : Nat := 0
  /-- `this.ws`: `none` when null, otherwise `some readyState` (`1` = OPEN). -/
  ws : Option Nat := none
deriving Repr, DecidableEq

/-- A promise settlement performed by the communicator: invoking the stored
`resolve` or `reject` of the pending entry for `id`. -/
inductive PromiseEvent where
  | resolved (id : Nat) (result : Option String)
  | rejected (id : Nat) (error : Option String)
deriving Repr, DecidableEq

/-- `flushSendQueue()`: repeatedly `shift`s the head of the queue, then checks
`!this.ws || this.ws.readyState !== 1` and throws "WebSocket is not open" if
so (note: the head was already dequeued), otherwise transmits it.  Returns
(remaining queue, transmitted envelopes in order, thrown error). -/
def flushSendQueue (ws : Option Nat) : List Envelope → List Envelope × List Envelope × Option String
  | [] => ([], [], none)
  | d :: rest =>
    if ws = some 1 then
      let r := flushSendQueue ws rest
      (r.1, d :: r.2.1, r.2.2)
    else
      (rest, [], some "WebSocket is not open")

/-- `send(data)`: pushes onto `_sendQueue`; if `this.ws?.readyState == 1`,
flushes immediately.  Returns (state, transmitted envelopes, thrown error). -/
def send (st : CommState) (d : Envelope) : CommState × List Envelope × Option String :=
  let st1 : CommState := { st with sendQueue := st.sendQueue ++ [d] }
  if st1.ws = some 1 then
    let r := flushSendQueue st1.ws st1.sendQueue
    ({ st1 with sendQueue := r.1 }, r.2.1, r.2.2)
  else
    (st1, [], none)

/-- `sendCommand(data)`: allocates `id := _sendQueueCount`, increments the
counter, registers the pending `{resolve, reject}` under `id`, and `send`s a
command envelope. -/
def sendCommand (st : CommState) (data : String) : CommState × List Envelope × Option String :=
  let id := st.sendQueueCount
  let st1 : CommState := { st with sendQueueCount := id + 1, responses := st.responses ++ [id] }
  send st1 (Envelope.command id data)

/-- `onOpen()`: flushes the queue against the current socket. -/
def onOpen (st : CommState) : CommState × List Envelope × Option String :=
  let r := flushSendQueue st.ws st.sendQueue
  ({ st with sendQueue := r.1 }, r.2.1, r.2.2)

/-- Effect on the communicator of `SystemTest.onWebSocketConnection`
(src/src/system-test.js): assigns the freshly connected (OPEN) socket to
`communicator.ws` and calls `communicator.onOpen()`. -/
def socketOpened (st : CommState) : CommState × List Envelope × Option String :=
  onOpen { st with ws := some 1 }

/-- Effect on the communicator of tearing the channel down
(`SystemTest.stop()` closes the client socket; `onWebSocketClose` then sets
`this.getCommunicator().ws = null`).  No code path touches `_responses`, so
the returned settlement-event list records every `resolve`/`reject` the
teardown performs on pending entries: there are none. -/
def closeChannel (st : CommState) : CommState × List PromiseEvent :=
  ({ st with ws := none }, [])

/-- JS truthiness of `data.data.error` for a string-or-absent error field. -/
def errTruthy : Option String → Bool
  | none => false
  | some s => s != ""

/-- An inbound parsed message, after `JSON.parse(rawData)`:
`isTrusted` messages, `type == "command"`, `type == "response"`, or any
other `type`. -/
inductive InboundMessage where
  | trusted
  | command (id : Nat) (data : String)
  | response (id : Nat) (data : RespData)
  | other (t : String) (raw : String)
deriving Repr, DecidableEq

/-- `onMessage(rawData)`.  The registered command handler is a parameter
(`.ok result` when it returns, `.error msg` when it throws).  Returns
(state, transmitted envelopes, promise settlements, thrown error):
* `isTrusted` messages are ignored;
* commands run the handler, responding `{result}` on success and `{error}`
  on a caught failure;
* responses look up the pending entry, throwing "No such response: id" when
  it is unknown, else delete it and reject (when `data.data.error` is
  truthy) or resolve it;
* any other type throws. -/
def onMessage (onCommand : String → Except String (Option String)) (st : CommState)
    (msg : InboundMessage) : CommState × List Envelope × List PromiseEvent × Option String :=
  match msg with
  | .trusted => (st, [], [], none)
  | .command id data =>
    match onCommand data with
    | .ok result =>
      let r := send st (Envelope.response id { result := result })
      (r.1, r.2.1, [], r.2.2)
    | .error emsg =>
      let r := send st (Envelope.response id { error := some emsg })
      (r.1, r.2.1, [], r.2.2)
  | .response id d =>
    if id ∈ st.responses then
      let st1 : CommState := { st with responses := st.responses.erase id }
      if errTruthy d.error then
        (st1, [], [PromiseEvent.rejected id d.error], none)
      else
        (st1, [], [PromiseEvent.resolved id d.result], none)
    else
      (st, [], [], some ("No such response: " ++ toString id))
  | .other t raw => (st, [], [], some ("Unknown type for SystemTestCommunicator: " ++ t ++ ": " ++ raw))

/-- A caller-issued enqueue operation on the channel: a direct `send` of an
envelope, or a `sendCommand` (which allocates the next id itself). -/
inductive ChannelOp where
  | sendEnvelope (e : Envelope)
  | sendCommandOp (data : String)
deriving Repr, DecidableEq

/-- Run a sequence of `send` / `sendCommand` calls, collecting every
transmitted envelope in order and every thrown error. -/
def runOps (st : CommState) : List ChannelOp → CommState × List Envelope × List String
  | [] => (st, [], [])
  | op :: rest =>
    let r := match op with
      | ChannelOp.sendEnvelope e => send st e
      | ChannelOp.sendCommandOp d => sendCommand st d
    let r2 := runOps r.1 rest
    (r2.1, r.2.1 ++ r2.2.1, r.2.2.toList ++ r2.2.2)

/-- The envelopes a sequence of operations enqueues, given the current value
of `_sendQueueCount` (command ids are allocated from it). -/
def opEnvelopes (count : Nat) : List ChannelOp → List Envelope
  | [] => []
  | ChannelOp.sendEnvelope e :: rest => e :: opEnvelopes count rest
  | ChannelOp.sendCommandOp d :: rest => Envelope.command count d :: opEnvelopes (count + 1) rest

/-- Channel state after a single `sendCommand` on a fresh communicator whose
socket has not connected yet: id 0 is pending. -/
def onePendingState : CommState := (sendCommand {} "ping").1

/-! ## Automation session adapter (src/src/system-test.js)

The adapter methods are embedded over an explicit state record holding the
fields they read and write (`_baseSelector`, `_timeouts`, `_driverTimeouts`).
The browser DOM is an external collaborator and enters as a parameter
`query : String → List Element` (the result of
`driver.findElements(By.css(sel))` for a DOM that is static for the duration
of one lookup).  `driver.wait(cond, t)` over such a static DOM either
succeeds on the first poll or rejects with Selenium's TimeoutError, whose
message is "Wait timed out after <elapsed>ms"; the reported elapsed
milliseconds are a parameter `waitElapsed`. -/

/-- A DOM element handle: its `isDisplayed()` answer, plus a tag so distinct
handles are distinguishable. -/
structure Element where
  displayed : Bool
  tag : String := ""
deriving Repr, DecidableEq

/-- The adapter-relevant mutable fields of a `SystemTest` instance. -/
structure AdapterState where
  /-- `_baseSelector` (undefined until `start` sets it). -/
  baseSelector : Option String := none
  /-- `_timeouts`: the stored timeout policy value. -/
  timeouts : Nat := 5000
  /-- `_driverTimeouts`: the timeout currently applied to the driver. -/
  driverTimeouts : Nat := 5000
deriving Repr, DecidableEq

/-- `getSelector(selector)`: prefixes the base selector when it is truthy
(set and non-empty). -/
def getSelector (st : AdapterState) (selector : String) : String :=
  match st.baseSelector with
  | none => selector
  | some b => if b = "" then selector else b ++ " " ++ selector

/-- Options accepted by `all` / `find` (`FindArgs`), with the destructuring
defaults of `all`: `visible = true` (an explicit `visible: null` is `none`),
`useBaseSelector = true`, `timeout` defaulting to `_driverTimeouts`. -/
structure FindArgs where
  timeout : Option Nat := none
  visible : Option Bool := some true
  useBaseSelector : Bool := true
deriving Repr, DecidableEq

/-- The effective selector used for the lookup in `all`. -/
def actualSelector (st : AdapterState) (selector : String) (args : FindArgs) : String :=
  if args.useBaseSelector then getSelector st selector else selector

/-- The visibility filter of `all`: only when `visible === true` or
`visible === false` is the displayed-state probed. -/
def visKeep (visible : Option Bool) (e : Element) : Bool :=
  match visible with
  | some true => e.displayed
  | some false => !e.displayed
  | none => true

/-- `all(selector, args)`: resolves the effective selector, waits (for a
nonzero timeout) until the query matches — over a static DOM the wait either
matches at once or times out, in which case the Selenium timeout error is
wrapped as "Couldn't get elements with selector: ..." — and applies the
visibility filter to the matched elements. -/
def all (st : AdapterState) (query : String → List Element) (waitElapsed : Nat)
    (selector : String) (args : FindArgs) : Except String (List Element) :=
  let actualTimeout := match args.timeout with
    | none => st.driverTimeouts
    | some t => t
  let sel := actualSelector st selector args
  let elementsE : Except String (List Element) :=
    if actualTimeout = 0 then Except.ok (query sel)
    else if (query sel).length > 0 then Except.ok (query sel)
    else Except.error ("Couldn\x27t get elements with selector: " ++ sel ++
      ": Wait timed out after " ++ toString waitElapsed ++ "ms")
  match elementsE with
  | Except.error m => Except.error m
  | Except.ok els => Except.ok (els.filter (visKeep args.visible))

/-- `(ms / 1000).toFixed(2)` on a millisecond count, as used by the
element-not-found message (round half up; exact for whole multiples of 10ms,
matching JS up to floating-point representation of the quotient). -/
def toFixed2Seconds (ms : Nat) : String :=
  let hundredths := (ms + 5) / 10
  let frac := hundredths % 100
  toString (hundredths / 100) ++ "." ++
    (if frac < 10 then "0" ++ toString frac else toString frac)

/-- `find(selector, args)`: runs `all`; a thrown error is re-raised with
" (selector: ...)" appended (the `elements = []` assignment in the catch is
dead code — both catch branches rethrow); more than one surviving element is
the ambiguity error naming the count; zero is the `ElementNotFoundError`
naming the configured timeout in seconds; exactly one is returned. -/
def find (st : AdapterState) (query : String → List Element) (waitElapsed : Nat)
    (selector : String) (args : FindArgs) : Except String Element :=
  let scopedSel := getSelector st selector
  match all st query waitElapsed selector args with
  | Except.error m => Except.error (m ++ " (selector: " ++ scopedSel ++ ")")
  | Except.ok els =>
    if els.length > 1 then
      Except.error ("More than 1 elements (" ++ toString els.length ++
        ") was found by CSS: " ++ scopedSel)
    else
      match els with
      | [] => Except.error ("Element couldn\x27t be found after " ++
          toFixed2Seconds st.timeouts ++ "s by CSS: " ++ scopedSel)
      | e :: _ => Except.ok e

/-- The full message of the wrapped wait-timeout error raised by `find` when
the query matches nothing for the whole wait. -/
def waitTimeoutFindMessage (st : AdapterState) (selector : String) (args : FindArgs)
    (waitElapsed : Nat) : String :=
  ("Couldn\x27t get elements with selector: " ++ actualSelector st selector args ++
    ": Wait timed out after " ++ toString waitElapsed ++ "ms") ++
    " (selector: " ++ getSelector st selector ++ ")"

/-- `needle` occurs contiguously inside `hay`. -/
def SubstringOf (needle hay : String) : Prop :=
  ∃ pre post, hay = pre ++ needle ++ post

/-- `driverSetTimeouts(newTimeout)`: records the new driver timeout (the
driver round trip carries no further adapter-visible state). -/
def driverSetTimeouts (st : AdapterState) (newTimeout : Nat) : AdapterState :=
  { st with driverTimeouts := newTimeout }

/-- `restoreTimeouts()`: throws when `this.getTimeouts()` is falsy (0),
otherwise applies the stored policy value to the driver. -/
def restoreTimeouts (st : AdapterState) : Except String AdapterState :=
  if st.timeouts = 0 then Except.error ("Timeouts haven\x27t previously been set")
  else Except.ok (driverSetTimeouts st st.timeouts)

/-- `findNoWait(selector, args)`: sets the driver timeout to 0, runs `find`,
and restores in a `finally`.  When `restoreTimeouts` itself throws (only
possible when `_timeouts` is 0) the finally-error replaces `find`'s outcome
and the driver timeout stays 0. -/
def findNoWait (st : AdapterState) (query : String → List Element) (waitElapsed : Nat)
    (selector : String) (args : FindArgs) : Except String Element × AdapterState :=
  let st1 := driverSetTimeouts st 0
  let r := find st1 query waitElapsed selector args
  match restoreTimeouts st1 with
  | Except.ok st2 => (r, st2)
  | Except.error m => (Except.error m, st1)

/-! ### `interact` (src/src/system-test.js lines 499-546)

Each loop iteration re-resolves the element via `_findElement` (for a string
argument: `find` on the selector) and invokes `element[methodName]`.  What
the browser does on the n-th iteration is a parameter
`behavior : Nat → AttemptOutcome` (attempts are numbered from 1). -/

/-- Outcome of the n-th iteration of the `interact` loop. -/
inductive AttemptOutcome where
  /-- `_findElement` threw; the error propagates, uncaught by the loop. -/
  | resolveFail (msg : String)
  /-- `element[methodName]` is undefined. -/
  | missingAttr
  /-- `element[methodName]` exists but is not a function. -/
  | notAFunction
  /-- the method call resolved with a value. -/
  | ok (value : String)
  /-- the method call threw an `Error` whose `constructor.name` is `kind`. -/
  | fail (kind : String) (msg : String)
deriving Repr, DecidableEq

/-- The three interactable-state error classes `interact` retries on. -/
def isRetriedInteractionError (kind : String) : Bool :=
  kind == "ElementNotInteractableError" || kind == "ElementClickInterceptedError" ||
    kind == "StaleElementReferenceError"

/-- The `interact` loop from a given value of `tries` for a
selector-identified element (`elemName` is `element.constructor.name`).
Returns the result and the number of element resolutions performed. -/
def interactGo (behavior : Nat → AttemptOutcome) (selector methodName elemName : String)
    (tries : Nat) : Except String String × Nat :=
  let t := tries + 1
  match behavior t with
  | AttemptOutcome.resolveFail msg => (Except.error msg, t)
  | AttemptOutcome.missingAttr =>
      (Except.error (elemName ++ " hasn\x27t an attribute named: " ++ methodName), t)
  | AttemptOutcome.notAFunction =>
      (Except.error (elemName ++ "#" ++ methodName ++ " is not a function"), t)
  | AttemptOutcome.ok v => (Except.ok v, t)
  | AttemptOutcome.fail kind msg =>
    if isRetriedInteractionError kind then
      if _h3 : t ≥ 3 then
        (Except.error ("CSS selector " ++ selector ++ " " ++ methodName ++
          " failed after " ++ toString t ++ " tries - " ++ kind ++ ": " ++ msg), t)
      else
        interactGo behavior selector methodName elemName t
    else
      (Except.error (elemName ++ " " ++ methodName ++ " failed - " ++ kind ++ ": " ++ msg), t)
termination_by 3 - tries
decreasing_by omega

/-- `interact(selector, methodName, ...)`: the loop entered with `tries = 0`. -/
def interact (behavior : Nat → AttemptOutcome) (selector methodName elemName : String) :
    Except String String × Nat :=
  interactGo behavior selector methodName elemName 0

/-! ### `waitForNoSelector` (src/src/system-test.js lines 579-618)

The poll probes `elements[0].isDisplayed()`, which can itself throw a
WebDriver error (e.g. `StaleElementReferenceError`); `driver.wait` rejects as
soon as its condition function throws.  The surrounding
`_withRethrownErrors` turns any `WebDriverError` (including the wait's own
TimeoutError) into a plain `Error` prefixed with "Selenium <class>: ". -/

/-- A WebDriver error: its class name and message. -/
structure WdError where
  name : String
  message : String
deriving Repr, DecidableEq

/-- An element as probed by the `waitForNoSelector` poll. -/
structure ProbedElement where
  isDisplayed : Except WdError Bool
deriving Repr

/-- One poll of the `waitForNoSelector` wait condition: true when nothing
matches, otherwise the negated displayed-state of the first match; a throwing
`isDisplayed` probe makes the poll itself throw. -/
def waitForNoSelectorPoll (query : String → List ProbedElement) (sel : String) :
    Except WdError Bool :=
  match query sel with
  | [] => Except.ok true
  | e :: _ =>
    match e.isDisplayed with
    | Except.ok d => Except.ok (!d)
    | Except.error err => Except.error err

/-- `waitForNoSelector(selector, {useBaseSelector})` over a static DOM: the
poll either throws (its WebDriver error is rethrown as a plain Error), holds
(the wait resolves), or stays false until the wait times out (the TimeoutError
is likewise rethrown as a plain Error). -/
def waitForNoSelector (st : AdapterState) (query : String → List ProbedElement)
    (waitElapsed : Nat) (selector : String) (useBaseSelector : Bool) : Except String Unit :=
  let sel := if useBaseSelector then getSelector st selector else selector
  match waitForNoSelectorPoll query sel with
  | Except.error err => Except.error ("Selenium " ++ err.name ++ ": " ++ err.message)
  | Except.ok true => Except.ok ()
  | Except.ok false =>
      Except.error ("Selenium TimeoutError: Wait timed out after " ++
        toString waitElapsed ++ "ms")

/-! ## HTTP health check (src/src/system-test-http-server.js lines 238-293) -/

/-- A failed HTTP request: its optional `code` property and its message. -/
structure HttpError where
  code : Option String := none
  message : String := ""
deriving Repr, DecidableEq

/-- Whether `needle` occurs contiguously in the character list `hay`
(JS `String.prototype.includes`). -/
def includesAux (needle : List Char) : List Char → Bool
  | [] => needle.isPrefixOf []
  | c :: rest => needle.isPrefixOf (c :: rest) || includesAux needle rest

/-- JS `hay.includes(needle)`. -/
def strIncludes (hay needle : String) : Bool :=
  includesAux needle.toList hay.toList

/-- `isRetryableHealthCheckError(error)`: connection-reset, -refused and
timed-out codes, or a "socket hang up" message. -/
def isRetryableHealthCheckError (e : HttpError) : Bool :=
  (match e.code with
   | some c => c == "ECONNRESET" || c == "ECONNREFUSED" || c == "ETIMEDOUT"
   | none => false) ||
  strIncludes e.message "socket hang up"

/-- Outcome of the n-th health-check HTTP GET. -/
inductive AttemptResult where
  /-- 200 response. -/
  | ok
  /-- request failed (non-200 status, connection error, or timeout). -/
  | fail (e : HttpError)
deriving Repr, DecidableEq

/-- The `for (attempt = 1; attempt <= maxAttempts; attempt++)` loop of
`assertReachable`, over the remaining attempt numbers (`maxAttempts = 3`, so
`attempt === maxAttempts` is "the remaining list is a singleton", i.e. `rest`
is empty after taking the head).  A success returns; a failure on the final
attempt, or a non-retryable failure, is rethrown; otherwise the loop sleeps
100ms and retries.  Returns the outcome and the number of attempts made
(loop fallthrough cannot occur from the actual attempt list and would
resolve, attempts 0). -/
def assertReachableGo (attemptResult : Nat → AttemptResult) :
    List Nat → Except HttpError Unit × Nat
  | [] => (Except.ok (), 0)
  | a :: rest =>
    match attemptResult a with
    | AttemptResult.ok => (Except.ok (), a)
    | AttemptResult.fail e =>
      if rest.isEmpty || !isRetryableHealthCheckError e then (Except.error e, a)
      else assertReachableGo attemptResult rest

/-- `assertReachable({timeoutMs})`: at most `maxAttempts = 3` attempts. -/
def assertReachable (attemptResult : Nat → AttemptResult) : Except HttpError Unit × Nat :=
  assertReachableGo attemptResult [1, 2, 3]

/-! ### Concrete scenario states used by counterexamples and witnesses -/

/-- A displayed element and a hidden element matching the same selector. -/
def elemVisible : Element := { displayed := true, tag := "a" }

/-- See `elemVisible`. -/
def elemHidden : Element := { displayed := false, tag := "b" }

/-- A DOM in which the selector "#dup" matches a displayed and a hidden
element. -/
def c6query : String → List Element :=
  fun s => if s = "#dup" then [elemVisible, elemHidden] else []

/-- An adapter state whose driver timeout (7) disagrees with the stored
policy value (5000), as a direct `driverSetTimeouts(7)` call produces. -/
def desyncState : AdapterState := { baseSelector := none, timeouts := 5000, driverTimeouts := 7 }

/-- An empty DOM. -/
def emptyQuery : String → List Element := fun _ => []

/-- An element whose displayed-state probe throws a stale-reference error. -/
def staleProbed : ProbedElement :=
  { isDisplayed := Except.error { name := "StaleElementReferenceError",
                                  message := "stale element reference" } }

/-- A DOM in which "#gone" matches one element whose probe is stale. -/
def staleQuery : String → List ProbedElement :=
  fun s => if s = "#gone" then [staleProbed] else []

/-- A connection-reset request error. -/
def connReset : HttpError := { code := some "ECONNRESET", message := "read ECONNRESET" }

/-- Health-check behavior: connection resets on the first three attempts,
then a 200. -/
def threeResetsThen200 : Nat → AttemptResult :=
  fun n => if n ≤ 3 then AttemptResult.fail connReset else AttemptResult.ok

/-- Health-check behavior: connection resets on the first two attempts, then
a 200 on the third. -/
def twoResetsThen200 : Nat → AttemptResult :=
  fun n => if 3 ≤ n then AttemptResult.ok else AttemptResult.fail connReset

/-- Health-check behavior: a connection reset on every attempt. -/
def alwaysReset : Nat → AttemptResult := fun _ => AttemptResult.fail connReset

/-- A DOM in which "#two" matches two displayed elements. -/
def twoVisibleQuery : String → List Element :=
  fun s => if s = "#two" then [elemVisible, { displayed := true, tag := "c" }] else []

/-- Interaction behavior: transient interactable-state failures on the first
two attempts, success on the third. -/
def failTwiceThenOk : Nat → AttemptOutcome :=
  fun n =>
    if n = 1 then AttemptOutcome.fail "ElementNotInteractableError" "not interactable"
    else if n = 2 then AttemptOutcome.fail "ElementClickInterceptedError" "intercepted"
    else AttemptOutcome.ok "clicked"

/-- Interaction behavior: a transient interactable-state failure on every
attempt. -/
def alwaysStale : Nat → AttemptOutcome :=
  fun _ => AttemptOutcome.fail "StaleElementReferenceError" "stale element reference"

/-! ### Channel lemmas -/

/-- Flushing against an OPEN socket transmits the whole queue in order. -/
theorem flushSendQueue_open (q : List Envelope) :
    flushSendQueue (some 1) q = ([], q, none) := by
  induction q with
  | nil => rfl
  | cons d rest ih => simp [flushSendQueue, ih]

/-- `send` while the socket is not OPEN only appends to the queue. -/
theorem send_not_open (st : CommState) (d : Envelope) (h : st.ws ≠ some 1) :
    send st d = ({ st with sendQueue := st.sendQueue ++ [d] }, [], none) := by
  simp [send, h]

/-- `sendCommand` while the socket is not OPEN only appends the command
envelope and registers the pending id. -/
theorem sendCommand_not_open (st : CommState) (data : String) (h : st.ws ≠ some 1) :
    sendCommand st data =
      ({ st with sendQueueCount := st.sendQueueCount + 1,
                 responses := st.responses ++ [st.sendQueueCount],
                 sendQueue := st.sendQueue ++ [Envelope.command st.sendQueueCount data] },
       [], none) := by
  have h2 : ({ st with sendQueueCount := st.sendQueueCount + 1, responses := st.responses ++ [st.sendQueueCount] } : CommState).ws ≠ some 1 := h
  simp [sendCommand, send_not_open _ _ h2]

/-- Running enqueue operations while the socket is not OPEN transmits
nothing, throws nothing, leaves the socket field unchanged, and extends the
queue with exactly the enqueued envelopes in order. -/
theorem runOps_not_open (ops : List ChannelOp) (st : CommState) (h : st.ws ≠ some 1) :
    (runOps st ops).1.sendQueue = st.sendQueue ++ opEnvelopes st.sendQueueCount ops ∧
    (runOps st ops).1.ws = st.ws ∧
    (runOps st ops).2.1 = [] ∧ (runOps st ops).2.2 = [] := by
  induction ops generalizing st with
  | nil => simp [runOps, opEnvelopes]
  | cons op rest ih =>
    cases op with
    | sendEnvelope e =>
      have hstep := send_not_open st e h
      have ih2 := ih ({ st with sendQueue := st.sendQueue ++ [e] }) h
      simp [runOps, hstep, opEnvelopes] at *
      simp [ih2]
    | sendCommandOp d =>
      have hstep := sendCommand_not_open st d h
      have ih2 := ih ({ st with sendQueueCount := st.sendQueueCount + 1,
                                responses := st.responses ++ [st.sendQueueCount],
                                sendQueue := st.sendQueue ++ [Envelope.command st.sendQueueCount d] }) h
      simp [runOps, hstep, opEnvelopes] at *
      simp [ih2]

/-- C1: envelopes enqueued through `send` / `sendCommand` while the socket is
not yet open are not transmitted during enqueueing, and once the socket opens
(`onWebSocketConnection` assigns the OPEN socket and calls `onOpen`) the
whole queue — the pre-existing queue followed by the newly enqueued envelopes
— is transmitted exactly once, in enqueue order, leaving the queue empty and
throwing no error. -/
theorem sendQueue_flushed_in_order_on_open (st : CommState) (ops : List ChannelOp)
    (h : st.ws ≠ some 1) :
    (runOps st ops).2.1 = [] ∧
    (socketOpened (runOps st ops).1).2.1 = st.sendQueue ++ opEnvelopes st.sendQueueCount ops ∧
    (socketOpened (runOps st ops).1).1.sendQueue = [] ∧
    (socketOpened (runOps st ops).1).2.2 = none := by
  obtain ⟨hq, hws, hsent, herr⟩ := runOps_not_open ops st h
  refine ⟨hsent, ?_, ?_, ?_⟩ <;>
    simp [socketOpened, onOpen, flushSendQueue_open, hq]

theorem sendQueue_flushed_in_order_on_open_witness :
    (({} : CommState).ws ≠ some 1) ∧
    ((runOps {} [ChannelOp.sendCommandOp "a", ChannelOp.sendEnvelope (Envelope.command 7 "b"),
                 ChannelOp.sendCommandOp "c"]).2.1 = [] ∧
     (socketOpened (runOps {} [ChannelOp.sendCommandOp "a",
                               ChannelOp.sendEnvelope (Envelope.command 7 "b"),
                               ChannelOp.sendCommandOp "c"]).1).2.1 =
       ([] : List Envelope) ++ opEnvelopes 0 [ChannelOp.sendCommandOp "a",
                               ChannelOp.sendEnvelope (Envelope.command 7 "b"),
                               ChannelOp.sendCommandOp "c"] ∧
     (socketOpened (runOps {} [ChannelOp.sendCommandOp "a",
                               ChannelOp.sendEnvelope (Envelope.command 7 "b"),
                               ChannelOp.sendCommandOp "c"]).1).1.sendQueue = [] ∧
     (socketOpened (runOps {} [ChannelOp.sendCommandOp "a",
                               ChannelOp.sendEnvelope (Envelope.command 7 "b"),
                               ChannelOp.sendCommandOp "c"]).1).2.2 = none) :=
  ⟨by decide,
   sendQueue_flushed_in_order_on_open {}
     [ChannelOp.sendCommandOp "a", ChannelOp.sendEnvelope (Envelope.command 7 "b"),
      ChannelOp.sendCommandOp "c"] (by decide)⟩

/-- C10: invoking `flushSendQueue` with a non-empty queue while the socket is
absent or not OPEN first dequeues the head envelope and only then throws
"WebSocket is not open": the head is lost without being transmitted and the
remaining envelopes stay queued in order. -/
theorem flushSendQueue_not_open_drops_head (ws : Option Nat) (d : Envelope)
    (rest : List Envelope) (h : ws ≠ some 1) :
    flushSendQueue ws (d :: rest) = (rest, [], some "WebSocket is not open") := by
  simp [flushSendQueue, h]

theorem flushSendQueue_not_open_drops_head_witness :
    ((none : Option Nat) ≠ some 1) ∧
    flushSendQueue none [Envelope.command 0 "x", Envelope.command 1 "y"] =
      ([Envelope.command 1 "y"], [], some "WebSocket is not open") :=
  ⟨by decide, flushSendQueue_not_open_drops_head none (Envelope.command 0 "x")
    [Envelope.command 1 "y"] (by decide)⟩

/-- C2 (code bug evidence): with one outstanding `sendCommand` promise
(id 0 pending), tearing the channel down settles no promise at all — the
pending entry survives teardown and its promise is never rejected, in
particular not with any "channel closed" error. -/
theorem closeChannel_rejects_nothing :
    onePendingState.responses = [0] ∧
    (closeChannel onePendingState).2 = [] ∧
    (closeChannel onePendingState).1.responses = [0] := by
  decide

/-- C3: for an inbound `response` envelope, when the id has no pending entry
`onMessage` throws "No such response: id" and changes nothing; when the id is
pending, the entry is removed and the promise is rejected with the error when
`data.data.error` is truthy, else resolved with the result. -/
theorem onMessage_response_handling (onCommand : String → Except String (Option String))
    (st : CommState) (id : Nat) (d : RespData) :
    (id ∉ st.responses →
      onMessage onCommand st (InboundMessage.response id d) =
        (st, [], [], some ("No such response: " ++ toString id))) ∧
    (id ∈ st.responses →
      onMessage onCommand st (InboundMessage.response id d) =
        ({ st with responses := st.responses.erase id }, [],
         [if errTruthy d.error then PromiseEvent.rejected id d.error
          else PromiseEvent.resolved id d.result], none)) := by
  constructor
  · intro hnot
    simp [onMessage, hnot]
  · intro hmem
    by_cases herr : errTruthy d.error <;> simp [onMessage, hmem, herr]

theorem onMessage_response_handling_witness :
    ((5 : Nat) ∉ onePendingState.responses ∧
      onMessage (fun _ => Except.ok none) onePendingState (InboundMessage.response 5 {}) =
        (onePendingState, [], [], some ("No such response: " ++ toString 5))) ∧
    ((0 : Nat) ∈ onePendingState.responses ∧
      onMessage (fun _ => Except.ok none) onePendingState
          (InboundMessage.response 0 { result := some "ok" }) =
        ({ onePendingState with responses := onePendingState.responses.erase 0 }, [],
         [if errTruthy (RespData.mk (some "ok") none).error then
            PromiseEvent.rejected 0 (RespData.mk (some "ok") none).error
          else PromiseEvent.resolved 0 (RespData.mk (some "ok") none).result], none)) :=
  ⟨⟨by decide,
    (onMessage_response_handling (fun _ => Except.ok none) onePendingState 5 {}).1 (by decide)⟩,
   ⟨by decide,
    (onMessage_response_handling (fun _ => Except.ok none) onePendingState 0
      { result := some "ok" }).2 (by decide)⟩⟩

/-! ### Adapter lemmas and claims -/

/-- Unfolding `interactGo` one step when the attempt fails with a retried
error class and tries remain. -/
theorem interactGo_step_retry (b : Nat → AttemptOutcome) (s m e k msg : String) (tries : Nat)
    (hb : b (tries + 1) = AttemptOutcome.fail k msg)
    (hk : isRetriedInteractionError k = true) (hlt : tries + 1 < 3) :
    interactGo b s m e tries = interactGo b s m e (tries + 1) := by
  rw [interactGo]
  simp only [hb, hk]
  rw [dif_neg (Nat.not_le_of_lt hlt)]
  simp

/-- Unfolding `interactGo` one step when the attempt succeeds. -/
theorem interactGo_step_ok (b : Nat → AttemptOutcome) (s m e v : String) (tries : Nat)
    (hb : b (tries + 1) = AttemptOutcome.ok v) :
    interactGo b s m e tries = (Except.ok v, tries + 1) := by
  rw [interactGo]
  simp only [hb]

/-- Unfolding `interactGo` when a retried error class strikes with no tries
left. -/
theorem interactGo_step_exhaust (b : Nat → AttemptOutcome) (s m e k msg : String) (tries : Nat)
    (hb : b (tries + 1) = AttemptOutcome.fail k msg)
    (hk : isRetriedInteractionError k = true) (hge : tries + 1 ≥ 3) :
    interactGo b s m e tries =
      (Except.error ("CSS selector " ++ s ++ " " ++ m ++ " failed after " ++
        toString (tries + 1) ++ " tries - " ++ k ++ ": " ++ msg), tries + 1) := by
  rw [interactGo]
  simp only [hb, hk]
  rw [dif_pos hge]
  simp

/-- C4: with a selector argument and a transient interactable-state failure
(not-interactable, click-intercepted or stale-reference) on the first two
attempts, a succeeding third attempt makes `interact` return the success
value having resolved the element exactly 3 times, while a transient failure
on the third attempt makes it throw the error naming the selector, the
method, the failure kind, and the attempt count. -/
theorem interact_retries_and_bounds (b1 b2 : Nat → AttemptOutcome)
    (selector methodName elemName v k1 k2 k3 m1 m2 m3 : String)
    (hk1 : isRetriedInteractionError k1 = true) (hk2 : isRetriedInteractionError k2 = true)
    (hk3 : isRetriedInteractionError k3 = true)
    (h11 : b1 1 = AttemptOutcome.fail k1 m1) (h12 : b1 2 = AttemptOutcome.fail k2 m2)
    (h13 : b1 3 = AttemptOutcome.ok v)
    (h21 : b2 1 = AttemptOutcome.fail k1 m1) (h22 : b2 2 = AttemptOutcome.fail k2 m2)
    (h23 : b2 3 = AttemptOutcome.fail k3 m3) :
    interact b1 selector methodName elemName = (Except.ok v, 3) ∧
    interact b2 selector methodName elemName =
      (Except.error ("CSS selector " ++ selector ++ " " ++ methodName ++
        " failed after " ++ toString 3 ++ " tries - " ++ k3 ++ ": " ++ m3), 3) := by
  constructor
  · rw [interact, interactGo_step_retry b1 _ _ _ _ _ _ h11 hk1 (by omega),
      interactGo_step_retry b1 _ _ _ _ _ _ h12 hk2 (by omega),
      interactGo_step_ok b1 _ _ _ _ _ h13]
  · rw [interact, interactGo_step_retry b2 _ _ _ _ _ _ h21 hk1 (by omega),
      interactGo_step_retry b2 _ _ _ _ _ _ h22 hk2 (by omega),
      interactGo_step_exhaust b2 _ _ _ _ _ _ h23 hk3 (by omega)]

theorem interact_retries_and_bounds_witness :
    (isRetriedInteractionError "ElementNotInteractableError" = true ∧
     isRetriedInteractionError "ElementClickInterceptedError" = true ∧
     isRetriedInteractionError "StaleElementReferenceError" = true) ∧
    (interact failTwiceThenOk "#btn" "click" "WebElement" = (Except.ok "clicked", 3) ∧
     interact (fun n => if n ≤ 2 then failTwiceThenOk n else alwaysStale n) "#btn" "click"
         "WebElement" =
       (Except.error ("CSS selector " ++ "#btn" ++ " " ++ "click" ++ " failed after " ++
         toString 3 ++ " tries - " ++ "StaleElementReferenceError" ++ ": " ++
         "stale element reference"), 3)) :=
  ⟨⟨by decide, by decide, by decide⟩,
   interact_retries_and_bounds failTwiceThenOk
     (fun n => if n ≤ 2 then failTwiceThenOk n else alwaysStale n)
     "#btn" "click" "WebElement" "clicked"
     "ElementNotInteractableError" "ElementClickInterceptedError" "StaleElementReferenceError"
     "not interactable" "intercepted" "stale element reference"
     (by decide) (by decide) (by decide)
     (by decide) (by decide) (by decide) (by decide) (by decide) (by decide)⟩

/-- C5: when the configured (nonzero) timeout elapses with the query matching
nothing, `find` raises an error whose message contains the elapsed wait time
and the effective selector used for the lookup. -/
theorem find_timeout_error_message (st : AdapterState) (query : String → List Element)
    (waitElapsed : Nat) (selector : String) (args : FindArgs)
    (hq : query (actualSelector st selector args) = [])
    (ht : (match args.timeout with | none => st.driverTimeouts | some t => t) ≠ 0) :
    find st query waitElapsed selector args =
      Except.error (waitTimeoutFindMessage st selector args waitElapsed) ∧
    SubstringOf (actualSelector st selector args)
      (waitTimeoutFindMessage st selector args waitElapsed) ∧
    SubstringOf (toString waitElapsed ++ "ms")
      (waitTimeoutFindMessage st selector args waitElapsed) := by
  refine ⟨?_, ?_, ?_⟩
  · simp only [find, all, hq, ht]
    simp [waitTimeoutFindMessage, ht]
  · exact ⟨"Couldn\x27t get elements with selector: ",
      ": Wait timed out after " ++ (toString waitElapsed ++ ("ms" ++ (" (selector: " ++
        (getSelector st selector ++ ")")))),
      by simp only [waitTimeoutFindMessage, String.append_assoc]⟩
  · exact ⟨"Couldn\x27t get elements with selector: " ++ (actualSelector st selector args ++
        ": Wait timed out after "),
      " (selector: " ++ (getSelector st selector ++ ")"),
      by simp only [waitTimeoutFindMessage, String.append_assoc]⟩

theorem find_timeout_error_message_witness :
    (emptyQuery (actualSelector {} "#nope" {}) = [] ∧
     (match ({} : FindArgs).timeout with
      | none => ({} : AdapterState).driverTimeouts
      | some t => t) ≠ 0) ∧
    (find {} emptyQuery 5003 "#nope" {} =
       Except.error (waitTimeoutFindMessage {} "#nope" {} 5003) ∧
     SubstringOf (actualSelector {} "#nope" {}) (waitTimeoutFindMessage {} "#nope" {} 5003) ∧
     SubstringOf (toString 5003 ++ "ms") (waitTimeoutFindMessage {} "#nope" {} 5003)) :=
  ⟨⟨rfl, by decide⟩,
   find_timeout_error_message {} emptyQuery 5003 "#nope" {} rfl (by decide)⟩

/-- C6 counterexample: a selector matching two elements (one displayed, one
hidden) under the default `requireVisible` filter does NOT make `find` raise
the ambiguous-match error — the hidden match is filtered out first and the
displayed one is returned. -/
theorem find_ambiguous_filtered_counterexample :
    (c6query "#dup").length = 2 ∧
    find {} c6query 5000 "#dup" {} = Except.ok elemVisible := by
  exact ⟨by decide, rfl⟩

/-- C6 amended: `find` raises the ambiguous-match error naming the element
count and the selector whenever more than one element survives the
visibility filter (whichever filter is in effect); a filter can reduce the
raw matches to at most one, in which case no ambiguity error is raised. -/
theorem find_ambiguous_after_filter (st : AdapterState) (query : String → List Element)
    (waitElapsed : Nat) (selector : String) (args : FindArgs) (els : List Element)
    (hall : all st query waitElapsed selector args = Except.ok els)
    (hlen : els.length > 1) :
    find st query waitElapsed selector args =
      Except.error ("More than 1 elements (" ++ toString els.length ++
        ") was found by CSS: " ++ getSelector st selector) := by
  unfold find
  rw [hall]
  simp [hlen]

theorem find_ambiguous_after_filter_witness :
    (all {} twoVisibleQuery 5000 "#two" {} =
       Except.ok [elemVisible, { displayed := true, tag := "c" }] ∧
     ([elemVisible, { displayed := true, tag := "c" }] : List Element).length > 1) ∧
    find {} twoVisibleQuery 5000 "#two" {} =
      Except.error ("More than 1 elements (" ++
        toString ([elemVisible, { displayed := true, tag := "c" }] : List Element).length ++
        ") was found by CSS: " ++ getSelector {} "#two") :=
  ⟨⟨rfl, by decide⟩,
   find_ambiguous_after_filter {} twoVisibleQuery 5000 "#two" {}
     [elemVisible, { displayed := true, tag := "c" }] rfl (by decide)⟩

/-- C7 counterexample: when the driver timeout in effect before the call (7)
differs from the stored timeout policy value (5000), `findNoWait` leaves the
driver timeout at the policy value, not at its prior value. -/
theorem findNoWait_restores_policy_counterexample :
    desyncState.driverTimeouts = 7 ∧
    (findNoWait desyncState emptyQuery 0 "#x" {}).2.driverTimeouts = 5000 ∧
    (findNoWait desyncState emptyQuery 0 "#x" {}).2.driverTimeouts ≠
      desyncState.driverTimeouts := by
  refine ⟨rfl, rfl, by decide⟩

/-- C7 amended: `findNoWait` runs `find` with the driver timeout set to 0 and
afterwards (whether `find` succeeded or threw) restores the stored timeout
policy value, provided that value is nonzero; in particular the driver
timeout in effect before the call is restored whenever it agreed with the
policy value. -/
theorem findNoWait_restores_policy (st : AdapterState) (query : String → List Element)
    (waitElapsed : Nat) (selector : String) (args : FindArgs)
    (hnz : st.timeouts ≠ 0) :
    (findNoWait st query waitElapsed selector args).1 =
      find (driverSetTimeouts st 0) query waitElapsed selector args ∧
    (findNoWait st query waitElapsed selector args).2 =
      { st with driverTimeouts := st.timeouts } ∧
    (st.driverTimeouts = st.timeouts →
      (findNoWait st query waitElapsed selector args).2.driverTimeouts =
        st.driverTimeouts) := by
  have h2 : restoreTimeouts (driverSetTimeouts st 0) =
      Except.ok { st with driverTimeouts := st.timeouts } := by
    simp [restoreTimeouts, driverSetTimeouts, hnz]
  refine ⟨?_, ?_, ?_⟩
  · simp [findNoWait, h2]
  · simp [findNoWait, h2]
  · intro hsync
    simp [findNoWait, h2, hsync]

theorem findNoWait_restores_policy_witness :
    (({} : AdapterState).timeouts ≠ 0) ∧
    ((findNoWait {} emptyQuery 0 "#x" {}).1 =
       find (driverSetTimeouts {} 0) emptyQuery 0 "#x" {} ∧
     (findNoWait {} emptyQuery 0 "#x" {}).2 =
       { ({} : AdapterState) with driverTimeouts := ({} : AdapterState).timeouts } ∧
     (({} : AdapterState).driverTimeouts = ({} : AdapterState).timeouts →
       (findNoWait {} emptyQuery 0 "#x" {}).2.driverTimeouts =
         ({} : AdapterState).driverTimeouts)) :=
  ⟨by decide, findNoWait_restores_policy {} emptyQuery 0 "#x" {} (by decide)⟩

/-- C8 counterexample: a stale-element-reference error thrown while probing
the displayed-state of the single matching element makes `waitForNoSelector`
fail — the error propagates (wrapped as a plain Error) instead of the
element being treated as not displayed. -/
theorem waitForNoSelector_stale_counterexample :
    waitForNoSelector {} staleQuery 5000 "#gone" false =
      Except.error "Selenium StaleElementReferenceError: stale element reference" ∧
    waitForNoSelector {} staleQuery 5000 "#gone" false ≠ Except.ok () := by
  have h : waitForNoSelector {} staleQuery 5000 "#gone" false =
      Except.error "Selenium StaleElementReferenceError: stale element reference" := rfl
  exact ⟨h, by rw [h]; exact fun hc => Except.noConfusion hc⟩

/-- C8 amended: a WebDriver error (such as a stale element reference) thrown
by the displayed-state probe of the `waitForNoSelector` poll is not caught by
the poll: the wait rejects and the caller receives the error rethrown as a
plain Error naming the Selenium error class. -/
theorem waitForNoSelector_stale_propagates (st : AdapterState)
    (query : String → List ProbedElement) (waitElapsed : Nat) (selector : String)
    (useBase : Bool) (e : ProbedElement) (rest : List ProbedElement) (err : WdError)
    (hq : query (if useBase then getSelector st selector else selector) = e :: rest)
    (he : e.isDisplayed = Except.error err) :
    waitForNoSelector st query waitElapsed selector useBase =
      Except.error ("Selenium " ++ err.name ++ ": " ++ err.message) := by
  simp [waitForNoSelector, waitForNoSelectorPoll, hq, he]

theorem waitForNoSelector_stale_propagates_witness :
    (staleQuery (if false then getSelector {} "#gone" else "#gone") = [staleProbed] ∧
     staleProbed.isDisplayed =
       Except.error { name := "StaleElementReferenceError",
                      message := "stale element reference" }) ∧
    waitForNoSelector {} staleQuery 7777 "#gone" false =
      Except.error ("Selenium " ++ "StaleElementReferenceError" ++ ": " ++
        "stale element reference") :=
  ⟨⟨rfl, rfl⟩,
   waitForNoSelector_stale_propagates {} staleQuery 7777 "#gone" false staleProbed []
     { name := "StaleElementReferenceError", message := "stale element reference" } rfl rfl⟩

/-- C9 counterexample: `maxAttempts = 3`, so three consecutive
connection-reset errors exhaust every allotted attempt: the health check
rethrows the third reset and never reaches the 200 available on a fourth
attempt. -/
theorem assertReachable_three_resets_counterexample :
    threeResetsThen200 4 = AttemptResult.ok ∧
    assertReachable threeResetsThen200 = (Except.error connReset, 3) ∧
    (assertReachable threeResetsThen200).1 ≠ Except.ok () := by
  have h : assertReachable threeResetsThen200 = (Except.error connReset, 3) := rfl
  exact ⟨by decide, h, by rw [h]; exact fun hc => Except.noConfusion hc⟩

/-- C9 amended: the health check makes at most 3 attempts.  Two consecutive
retryable connection-reset errors followed by a success on the third attempt
complete it successfully after 3 attempts, while a connection-reset on every
attempt makes the third attempt rethrow its connection-reset error (the
underlying error itself — the code has no distinct host-unreachable error
type). -/
theorem assertReachable_retry_bounds (b1 b2 : Nat → AttemptResult) (e : HttpError)
    (hr : isRetryableHealthCheckError e = true)
    (h11 : b1 1 = AttemptResult.fail e) (h12 : b1 2 = AttemptResult.fail e)
    (h13 : b1 3 = AttemptResult.ok)
    (h2 : ∀ n, b2 n = AttemptResult.fail e) :
    assertReachable b1 = (Except.ok (), 3) ∧
    assertReachable b2 = (Except.error e, 3) := by
  constructor
  · simp [assertReachable, assertReachableGo, h11, h12, h13, hr]
  · simp [assertReachable, assertReachableGo, h2, hr]

theorem assertReachable_retry_bounds_witness :
    (isRetryableHealthCheckError connReset = true ∧
     twoResetsThen200 1 = AttemptResult.fail connReset ∧
     twoResetsThen200 2 = AttemptResult.fail connReset ∧
     twoResetsThen200 3 = AttemptResult.ok) ∧
    (assertReachable twoResetsThen200 = (Except.ok (), 3) ∧
     assertReachable alwaysReset = (Except.error connReset, 3)) :=
  ⟨⟨by decide, by decide, by decide, by decide⟩,
   assertReachable_retry_bounds twoResetsThen200 alwaysReset connReset
     (by decide) (by decide) (by decide) (by decide) (fun _ => rfl)⟩

end SystemTesting
